import Mathlib

/-!
Shallow embedding of the Axelar data-provider plugin
(src/packages/axelar-plugin/src/service.ts).

Conventions used throughout:
* JS numbers that carry money/rates are modelled as exact rationals (ℚ);
  raw token amounts (decimal strings fed through Number) are naturals;
  Math.floor is Int.floor.
* Timestamps (Date.now()) are naturals in milliseconds, passed explicitly.
* Thrown JS errors become an explicit ServiceError sum type; functions that
  can throw return Except ServiceError.
* Upstream HTTP behaviour is an explicit oracle parameter: each modelled
  call site takes the outcome the network would have produced.
* Mutable instance state (metrics, caches, the pending map, breaker state)
  is threaded explicitly.
-/

namespace DataProvider

/-- Error taxonomy of service.ts.  `axelarAPIError` is the AxelarAPIError
class (statusCode, retryable flag); `rateLimitError` is its RateLimitError
subclass (statusCode 429, retryable, with a retryAfterMs hint);
`priceAPIError` is PriceAPIError; `genericError` is a plain JS `Error`,
e.g. the one thrown by an OPEN circuit breaker. -/
inductive ServiceError where
  | axelarAPIError (message : String) (statusCode : Option Nat) (retryable : Bool)
  | rateLimitError (message : String) (retryAfterMs : Nat)
  | priceAPIError (message : String) (symbol : String)
  | genericError (message : String)
deriving DecidableEq

/-- The `lastError instanceof AxelarAPIError && !lastError.retryable` test in
`retryOperation`.  A RateLimitError is an AxelarAPIError with
`retryable = true`, so it is never non-retryable; a plain `Error` (such as
the circuit breaker's `new Error('Circuit breaker is OPEN')`) is not an
AxelarAPIError at all, so it also fails the test. -/
def ServiceError.isNonRetryable : ServiceError → Bool
  | .axelarAPIError _ _ retryable => !retryable
  | _ => false

/-- The plain Error thrown by CircuitBreaker.execute when the circuit is
OPEN and the reset timeout has not elapsed. -/
def circuitOpenError : ServiceError := .genericError "Circuit breaker is OPEN"

/-- PerformanceMetrics of service.ts. -/
structure Metrics where
  apiCalls : Nat
  cacheHits : Nat
  cacheMisses : Nat
  errors : Nat
  totalResponseTime : Nat
deriving DecidableEq

/-- The metrics object as initialised in the DataProviderService
constructor: every counter starts at zero. -/
def initialMetrics : Metrics := ⟨0, 0, 0, 0, 0⟩

/-! ## Timeout-bounded fetcher (`fetchWithTimeout`) -/

/-- The part of a JS `Response` that fetchWithTimeout inspects: the status
code, status text, and the retry-after header (already parsed to seconds;
absent header means `none`, matching `headers.get` returning null). -/
structure HttpResponse where
  status : Nat
  statusText : String
  retryAfterHeader : Option Nat
deriving DecidableEq

/-- `response.ok` of the Fetch API: status in the range 200..299. -/
def HttpResponse.ok (r : HttpResponse) : Bool :=
  200 ≤ r.status && r.status ≤ 299

/-- What the network does for one call to `fetch`: either an HTTP response
arrives (after `durationMs` milliseconds), or the AbortController fires
(the timeout), or the transport fails outright. -/
inductive FetchOutcome where
  | response (r : HttpResponse) (durationMs : Nat)
  | abortTimeout
  | transportError (message : String)
deriving DecidableEq

/-- `fetchWithTimeout` (service.ts lines 932-995), as a function of the
network outcome and the metrics state it mutates.  When a response
arrives, `apiCalls` and `totalResponseTime` are updated and then the
status is classified (429 → RateLimitError, other ≥400 non-ok →
AxelarAPIError retryable iff ≥500); when the call aborts on timeout or
fails in transport, control jumps straight to the catch block, which only
increments `errors`.  Errors thrown inside the try block (the classified
HTTP errors) also pass through the catch block's `errors` increment. -/
def fetchWithTimeout (timeoutMs : Nat) (outcome : FetchOutcome) (m : Metrics) :
    Except ServiceError HttpResponse × Metrics :=
  match outcome with
  | .response r durationMs =>
      let m1 : Metrics :=
        { m with apiCalls := m.apiCalls + 1,
                 totalResponseTime := m.totalResponseTime + durationMs }
      if r.status = 429 then
        let retryAfter := r.retryAfterHeader.getD 1
        (.error (.rateLimitError "Rate limited" (retryAfter * 1000)),
         { m1 with errors := m1.errors + 1 })
      else if !r.ok ∧ 400 ≤ r.status then
        (.error (.axelarAPIError "HTTP error" (some r.status) (500 ≤ r.status)),
         { m1 with errors := m1.errors + 1 })
      else
        (.ok r, m1)
  | .abortTimeout =>
      (.error (.axelarAPIError "Request timeout" (some 0) true),
       { m with errors := m.errors + 1 })
  | .transportError msg =>
      (.error (.axelarAPIError ("Network error: " ++ msg) (some 0) true),
       { m with errors := m.errors + 1 })

/-! ## TTL cache -/

/-- One slot of the TTLCache store. -/
structure CacheEntry (V : Type) where
  value : V
  expiresAt : Nat
  accessCount : Nat
deriving DecidableEq

/-- TTLCache of service.ts: a map from keys to entries plus hit/miss
counters and the instance TTL.  The JS Map is modelled as a function to
Option. -/
structure TTLCache (V : Type) where
  ttlMs : Nat
  store : String → Option (CacheEntry V)
  hits : Nat
  misses : Nat

/-- `TTLCache.get`: absent key counts a miss; a present key with
`now > expiresAt` is deleted and counts a miss; otherwise the access
counter and hit counter are bumped and the value returned. -/
def TTLCache.get (c : TTLCache V) (now : Nat) (key : String) :
    Option V × TTLCache V :=
  match c.store key with
  | none => (none, { c with misses := c.misses + 1 })
  | some hit =>
      if now > hit.expiresAt then
        (none, { c with
          store := fun k => if k = key then none else c.store k,
          misses := c.misses + 1 })
      else
        (some hit.value, { c with
          store := fun k =>
            if k = key then some { hit with accessCount := hit.accessCount + 1 }
            else c.store k,
          hits := c.hits + 1 })

/-- `TTLCache.set`: stores the value with `expiresAt = now + ttlMs` and a
fresh access counter of zero. -/
def TTLCache.set (c : TTLCache V) (now : Nat) (key : String) (value : V) :
    TTLCache V :=
  { c with store := fun k =>
      if k = key then some ⟨value, now + c.ttlMs, 0⟩ else c.store k }

/-! ## Request deduplicator -/

/-- RequestDeduplicator state.  The `pending` JS Map from key to the
in-flight Promise is modelled as a map from key to an operation id; two
callers holding the same id hold the same promise and hence observe the
identical eventual outcome.  `nextOp` supplies fresh ids and
`invocations` counts how many times a producer function was actually
invoked. -/
structure Deduplicator where
  pending : String → Option Nat
  nextOp : Nat
  invocations : Nat

/-- One `deduplicate(key, fn)` call (service.ts lines 158-170): if a
pending promise exists for the key it is returned as-is and `fn` is not
invoked; otherwise `fn` is invoked, its promise registered under the key,
and that promise returned.  The body runs synchronously on the JS event
loop, so the step is atomic. -/
def Deduplicator.deduplicate (d : Deduplicator) (key : String) :
    Nat × Deduplicator :=
  match d.pending key with
  | some id => (id, d)
  | none =>
      (d.nextOp,
       { pending := fun k => if k = key then some d.nextOp else d.pending k,
         nextOp := d.nextOp + 1,
         invocations := d.invocations + 1 })

/-- The `.finally` handler attached in `deduplicate`: on settlement of the
operation (success or failure alike) the key is removed from the pending
map. -/
def Deduplicator.settle (d : Deduplicator) (key : String) : Deduplicator :=
  { d with pending := fun k => if k = key then none else d.pending k }

/-- `n` deduplicate calls for the same key, all issued before the
operation settles (no interleaved `settle`), returning the list of
promise ids handed to the callers. -/
def dedupeMany (d : Deduplicator) (key : String) : Nat → List Nat × Deduplicator
  | 0 => ([], d)
  | n + 1 =>
      let step := d.deduplicate key
      let rest := dedupeMany step.2 key n
      (step.1 :: rest.1, rest.2)

/-! ## Circuit breaker -/

inductive CircuitState where
  | CLOSED
  | OPEN
  | HALF_OPEN
deriving DecidableEq

/-- CircuitBreaker instance state plus its immutable configuration. -/
structure CircuitBreaker where
  failureThreshold : Nat
  resetTimeoutMs : Nat
  failures : Nat
  lastFailureTime : Nat
  state : CircuitState
deriving DecidableEq

/-- `onSuccess`: reset the failure count and close the circuit. -/
def CircuitBreaker.onSuccess (b : CircuitBreaker) : CircuitBreaker :=
  { b with failures := 0, state := .CLOSED }

/-- `onFailure`: bump the failure count, stamp the failure time, and open
the circuit once the count reaches the threshold (otherwise the state is
left as it was). -/
def CircuitBreaker.onFailure (b : CircuitBreaker) (now : Nat) : CircuitBreaker :=
  let failures := b.failures + 1
  { b with
    failures := failures
    lastFailureTime := now
    state := if failures ≥ b.failureThreshold then .OPEN else b.state }

/-- Result of one `execute` call: either the breaker failed fast without
invoking the wrapped function, or the function was invoked and succeeded
or failed. -/
inductive ExecOutcome where
  | fastFail
  | invokedSuccess
  | invokedFailure
deriving DecidableEq

/-- The try/catch around `fn()` in `execute`: invoke, then onSuccess or
onFailure. -/
def CircuitBreaker.attempt (b : CircuitBreaker) (now : Nat) (opSucceeds : Bool) :
    ExecOutcome × CircuitBreaker :=
  if opSucceeds then (.invokedSuccess, b.onSuccess)
  else (.invokedFailure, b.onFailure now)

/-- `CircuitBreaker.execute` (service.ts lines 190-207), as a state
transition given the current time and whether the wrapped operation would
succeed were it invoked.  While OPEN the breaker moves to HALF_OPEN and
proceeds only when `now - lastFailureTime > resetTimeoutMs` (strict);
otherwise it throws 'Circuit breaker is OPEN' without invoking `fn`. -/
def CircuitBreaker.execute (b : CircuitBreaker) (now : Nat) (opSucceeds : Bool) :
    ExecOutcome × CircuitBreaker :=
  match b.state with
  | .OPEN =>
      if now - b.lastFailureTime > b.resetTimeoutMs then
        CircuitBreaker.attempt { b with state := .HALF_OPEN } now opSucceeds
      else
        (.fastFail, b)
  | _ => CircuitBreaker.attempt b now opSucceeds

/-! ## Retry coordinator (`retryOperation`) -/

/-- The delay computed for one failed attempt in `retryOperation`:
exponential backoff `retryDelayMs * 2^attempt` plus the sampled jitter,
overridden by the exact `retryAfterMs` hint when the error is a
RateLimitError. -/
def computeDelay (retryDelayMs attempt jitter : Nat) (e : ServiceError) : Nat :=
  match e with
  | .rateLimitError _ retryAfterMs => retryAfterMs
  | _ => retryDelayMs * 2 ^ attempt + jitter

/-- The trace of one `retryOperation` run: the surfaced result, the sleep
delays taken between attempts, and how many times the operation was
invoked. -/
structure RetryRun (α : Type) where
  result : Except ServiceError α
  delays : List Nat
  attempts : Nat

/-- The attempt loop of `retryOperation` (service.ts lines 1000-1044).
`op i` is the outcome the wrapped operation would produce on attempt `i`;
`jitter i` is the value of `Math.floor(Math.random() * 250)` sampled after
attempt `i` fails.  A non-retryable error (AxelarAPIError with
`retryable = false`) is rethrown immediately; otherwise, if attempts
remain, the computed delay is slept and the loop continues; after the
final failed attempt the last error is rethrown. -/
def retryOperationAux (op : Nat → Except ServiceError α) (jitter : Nat → Nat)
    (retryDelayMs : Nat) : Nat → Nat → RetryRun α
  | _, 0 => ⟨.error (.genericError "Operation failed after retries"), [], 0⟩
  | attempt, remaining + 1 =>
      match op attempt with
      | .ok v => ⟨.ok v, [], 1⟩
      | .error e =>
          if e.isNonRetryable then ⟨.error e, [], 1⟩
          else if remaining = 0 then ⟨.error e, [], 1⟩
          else
            let d := computeDelay retryDelayMs attempt (jitter attempt) e
            let rest := retryOperationAux op jitter retryDelayMs (attempt + 1) remaining
            ⟨rest.result, d :: rest.delays, rest.attempts + 1⟩

/-- `retryOperation` with the DataProviderService instance constants
`maxRetries = 3` and `retryDelayMs = 1000`. -/
def retryOperation (op : Nat → Except ServiceError α) (jitter : Nat → Nat) :
    RetryRun α :=
  retryOperationAux op jitter 1000 0 3

/-! ## Domain entities and the quote math -/

/-- Asset of contract.ts as used by the service. -/
structure Asset where
  chainId : String
  assetId : String
  symbol : String
  decimals : Nat
deriving DecidableEq

/-- Rate of contract.ts.  `amountIn` is the numeric value of the decimal
string handed in (a raw token amount, a natural); `amountOut` is the
floored raw output (stringified in TS); the rate and fee fields are the
JS numbers, modelled exactly as rationals.  The quotedAt timestamp is
omitted: no claim mentions it. -/
structure Rate where
  source : Asset
  destination : Asset
  amountIn : Nat
  amountOut : Int
  effectiveRate : ℚ
  totalFeesUsd : ℚ
deriving DecidableEq

/-- `Number(x.toFixed(6))` applied to a nonnegative JS number: rounding to
six decimal places, ties away from zero (half up for the nonnegative
values this code produces). -/
def toFixed6 (q : ℚ) : ℚ :=
  (Int.floor (q * 1000000 + 1 / 2) : ℚ) / 1000000

/-- The value `getUsdPrice` resolves for a token, as a function of what
the price upstream would yield (`none` when the lookup fails at any
stage).  The inner body returns the fetched price only when it is
strictly positive and otherwise throws PriceAPIError; every failure path
(circuit open, HTTP error, zero price) is caught and falls back to the
conservative $1.  Stablecoin symbols short-circuit to $1 as well, and the
cache only ever holds previously resolved values, so every price this
function produces is strictly positive. -/
def resolvePrice (apiPrice : Option ℚ) : ℚ :=
  match apiPrice with
  | some p => if 0 < p then p else 1
  | none => 1

/-- The `gasFeeUsd` taken from the fee endpoint before the 50% cap:
`Number(feeData?.data?.fee_usd) || gasFeeUsdDefault`, where the default
is $5 and a missing or falsy (zero) field falls back to it. -/
def quoteGasFeeRaw (feeUsdField : Option ℚ) : ℚ :=
  match feeUsdField with
  | some f => if f = 0 then 5 else f
  | none => 5

/-- The 50%-of-transfer-value cap on the gas fee: for positive transfers
a gas fee above half the USD value is clamped to half the USD value
(service.ts lines 624-626). -/
def quoteGasFeeUsd (amountInUsd gasFeeUsd0 : ℚ) : ℚ :=
  if 0 < amountInUsd ∧ amountInUsd * 0.5 < gasFeeUsd0 then amountInUsd * 0.5
  else gasFeeUsd0

/-- `totalFeeUsd = amountInNormalized * priceUsd * baseFeePercent +
gasFeeUsd` with `baseFeePercent = 0.001` (service.ts line 629). -/
def quoteTotalFeeUsd (amountInNormalized priceUsd gasFeeUsd : ℚ) : ℚ :=
  amountInNormalized * priceUsd * 0.001 + gasFeeUsd

/-- `feeRatio = amountInUsd > 0 ? min(totalFeeUsd / amountInUsd, 0.99) :
0.001` (service.ts line 632). -/
def quoteFeeRatio (totalFeeUsd amountInUsd : ℚ) : ℚ :=
  if 0 < amountInUsd then min (totalFeeUsd / amountInUsd) 0.99 else 0.001

/-- `amountOutNum = max(0, floor(amountInNum * (1 - feeRatio)))`
(service.ts line 635). -/
def quoteAmountOut (amountInNum feeRatio : ℚ) : Int :=
  max 0 (Int.floor (amountInNum * (1 - feeRatio)))

/-- The body of `getAxelarQuote` (service.ts lines 597-649) after the fee
endpoint has answered: `priceUsd` is the resolved source-token price and
`feeUsdField` is `feeData?.data?.fee_usd` (absent or unusable → `none`;
`Number(fee) || default` treats a zero field as falsy, see
`quoteGasFeeRaw`). -/
def getAxelarQuote (source destination : Asset) (amountIn : Nat)
    (priceUsd : ℚ) (feeUsdField : Option ℚ) : Rate :=
  let amountInNum : ℚ := amountIn
  let amountInNormalized : ℚ := amountInNum / 10 ^ source.decimals
  let amountInUsd : ℚ := amountInNormalized * priceUsd
  let gasFeeUsd : ℚ := quoteGasFeeUsd amountInUsd (quoteGasFeeRaw feeUsdField)
  let totalFeeUsd : ℚ := quoteTotalFeeUsd amountInNormalized priceUsd gasFeeUsd
  let feeRatio : ℚ := quoteFeeRatio totalFeeUsd amountInUsd
  let amountOutNum : Int := quoteAmountOut amountInNum feeRatio
  let amountOutNormalized : ℚ := (amountOutNum : ℚ) / 10 ^ destination.decimals
  let effectiveRate : ℚ := amountOutNormalized / amountInNormalized
  { source := source
    destination := destination
    amountIn := amountIn
    amountOut := amountOutNum
    effectiveRate := effectiveRate
    totalFeesUsd := toFixed6 totalFeeUsd }

/-- `createFallbackRate` (service.ts lines 659-678): a fixed 0.1% fee
approximation plus $5 gas, used whenever the quote path fails. -/
def createFallbackRate (source destination : Asset) (amountIn : Nat) : Rate :=
  let amountInNum : ℚ := amountIn
  let rate : ℚ := 0.999
  let amountOutNum : ℚ := amountInNum * rate
  { source := source
    destination := destination
    amountIn := amountIn
    amountOut := Int.floor amountOutNum
    effectiveRate := rate
    totalFeesUsd := amountInNum / 10 ^ source.decimals * 0.001 + 5 }

/-- `getAxelarQuote` end to end: the initial fee-endpoint fetch either
throws (any classified failure), in which case the surrounding catch
returns the fallback rate, or yields an optional usable `fee_usd` field.
`getUsdPrice` never throws (it falls back to $1 internally), so no other
throw site exists in the try block. -/
def getAxelarQuoteFull (source destination : Asset) (amountIn : Nat)
    (feeFetch : Except ServiceError (Option ℚ)) (priceApi : Option ℚ) : Rate :=
  match feeFetch with
  | .error _ => createFallbackRate source destination amountIn
  | .ok feeUsdField =>
      getAxelarQuote source destination amountIn (resolvePrice priceApi) feeUsdField

/-! ## Volumes -/

/-- The three supported time windows. -/
inductive Window where
  | w24h
  | w7d
  | w30d
deriving DecidableEq

/-- `getEstimatedVolume` (service.ts lines 444-452). -/
def getEstimatedVolume : Window → ℚ
  | .w24h => 8000000
  | .w7d => 60000000
  | .w30d => 250000000

/-- VolumeWindow of contract.ts (measuredAt timestamp omitted: no claim
mentions it). -/
structure VolumeWindow where
  window : Window
  volumeUsd : ℚ
deriving DecidableEq

/-- One page of the transfers endpoint as `getVolumes` consumes it: the
USD value of each transfer on the page (`value_usd || amount_usd || 0`)
and the optional next-page cursor. -/
structure TransferPage where
  values : List ℚ
  nextCursor : Option String

/-- The pagination loop inside `getVolumes`: up to `remaining` pages
(capped at 5 in the caller) are fetched and their transfer values summed;
a missing next cursor stops the loop; any fetch failure aborts the whole
window with that error. -/
def sumTransferPages (fetchPage : Nat → Except ServiceError TransferPage) :
    Nat → Nat → Except ServiceError ℚ
  | _, 0 => .ok 0
  | page, remaining + 1 =>
      match fetchPage page with
      | .error e => .error e
      | .ok p =>
          let pageSum := p.values.foldl (· + ·) 0
          match p.nextCursor with
          | none => .ok pageSum
          | some _ =>
              match sumTransferPages fetchPage (page + 1) remaining with
              | .error e => .error e
              | .ok rest => .ok (pageSum + rest)

/-- The per-window body of `getVolumes` (service.ts lines 374-435): sum up
to five pages of transfers; on any error the catch pushes the heuristic
estimate, and a falsy (zero) total is also replaced by the estimate
(`totalVolumeUsd || getEstimatedVolume(window)`). -/
def getVolumeForWindow (fetchPage : Nat → Except ServiceError TransferPage)
    (w : Window) : VolumeWindow :=
  match sumTransferPages fetchPage 0 5 with
  | .error _ => { window := w, volumeUsd := getEstimatedVolume w }
  | .ok total =>
      { window := w
        volumeUsd := if total = 0 then getEstimatedVolume w else total }

/-- `getVolumes`: one entry per requested window, in order; the per-window
try/catch means no window ever throws. -/
def getVolumes (fetchPage : Window → Nat → Except ServiceError TransferPage)
    (windows : List Window) : List VolumeWindow :=
  windows.map (fun w => getVolumeForWindow (fetchPage w) w)

/-! ## Rates, liquidity, listed assets, and the snapshot -/

/-- A route as passed to getSnapshot. -/
structure Route where
  source : Asset
  destination : Asset
deriving DecidableEq

/-- One record of the cross-chain asset registry as getListedAssets reads
it: denom, symbol, decimals, and the chain→address map. -/
structure RegistryAsset where
  denom : String
  symbol : String
  decimals : Nat
  addresses : List (String × String)

/-- The upstream world one snapshot request runs against: what each
network interaction would yield.  `feeFetch` is the fee-endpoint outcome
per route (the endpoint is keyed by chains and asset symbol only);
`priceApi` is the price the price endpoint would resolve for an asset
(`none` = lookup fails); `chainsFetch`/`assetsFetch` are the two registry
calls of getListedAssets. -/
structure UpstreamWorld where
  transferPage : Window → Nat → Except ServiceError TransferPage
  feeFetch : Route → Except ServiceError (Option ℚ)
  priceApi : Asset → Option ℚ
  chainsFetch : Except ServiceError Unit
  assetsFetch : Except ServiceError (List RegistryAsset)

/-- `getRates` (service.ts lines 465-482): route-major, notional-minor
nested loops; the try/catch around each quote never fires because
getAxelarQuote handles its own failures. -/
def getRates (w : UpstreamWorld) (routes : List Route) (notionals : List Nat) :
    List Rate :=
  routes.flatMap (fun r => notionals.map (fun n =>
    getAxelarQuoteFull r.source r.destination n (w.feeFetch r) (w.priceApi r.source)))

/-- The quote getLiquidityDepth obtains for a probe amount on a route. -/
def routeQuote (w : UpstreamWorld) (r : Route) (amount : Nat) : Rate :=
  getAxelarQuoteFull r.source r.destination amount (w.feeFetch r) (w.priceApi r.source)

/-- `slippageBps` as computed in getLiquidityDepth:
`|quote.rate - baseline| / baseline * 10000`. -/
def slippageBpsOf (baselineRate quoteRate : ℚ) : ℚ :=
  |(quoteRate - baselineRate) / baselineRate| * 10000

/-- LiquidityThreshold of contract.ts (maxAmountIn is the numeric value of
the stringified amount). -/
structure LiquidityThreshold where
  maxAmountIn : Nat
  slippageBps : Nat
deriving DecidableEq

/-- LiquidityDepth of contract.ts (measuredAt omitted). -/
structure LiquidityDepth where
  route : Route
  thresholds : List LiquidityThreshold
deriving DecidableEq

/-- The probe ladder of getLiquidityDepth: walk the test amounts in order,
updating the ≤50bps and ≤100bps maxima whenever the probe's slippage
against the baseline stays under the bound.  (In the source each probe
sits in a try/catch that breaks the ladder on failure, but getAxelarQuote
never throws, so every probe yields a quote.) -/
def liquidityLadder (w : UpstreamWorld) (r : Route) (baselineRate : ℚ) :
    List Nat → Nat → Nat → Nat × Nat
  | [], m50, m100 => (m50, m100)
  | amount :: rest, m50, m100 =>
      let q := routeQuote w r amount
      let bps := slippageBpsOf baselineRate q.effectiveRate
      let m50' := if bps ≤ 50 then amount else m50
      let m100' := if bps ≤ 100 then amount else m100
      liquidityLadder w r baselineRate rest m50' m100'

/-- The per-route body of `getLiquidityDepth` (service.ts lines 686-733):
baseline quote at $50k, probes at $100k/$500k/$1M, thresholds from the
ladder maxima (defaults $50k). -/
def getLiquidityForRoute (w : UpstreamWorld) (r : Route) : LiquidityDepth :=
  let dec := r.source.decimals
  let baselineAmount := 50000 * 10 ^ dec
  let baselineRate := (routeQuote w r baselineAmount).effectiveRate
  let testAmounts := [100000 * 10 ^ dec, 500000 * 10 ^ dec, 1000000 * 10 ^ dec]
  let maxes := liquidityLadder w r baselineRate testAmounts
    (50000 * 10 ^ dec) (50000 * 10 ^ dec)
  { route := r
    thresholds := [⟨maxes.1, 50⟩, ⟨maxes.2, 100⟩] }

/-- The catch-block fallback of getLiquidityDepth (service.ts lines
737-750): the documented fixed fallback thresholds, $800k at 50bps and
$600k at 100bps.  Unreachable on the quote path, since getAxelarQuote
never throws. -/
def fallbackLiquidityEntry (r : Route) : LiquidityDepth :=
  { route := r
    thresholds := [⟨800000 * 10 ^ r.source.decimals, 50⟩,
                   ⟨600000 * 10 ^ r.source.decimals, 100⟩] }

/-- `getLiquidityDepth`: one entry per route, in order. -/
def getLiquidityDepth (w : UpstreamWorld) (routes : List Route) :
    List LiquidityDepth :=
  routes.map (getLiquidityForRoute w)

/-- `getFallbackAssets` (service.ts lines 857-927), verbatim. -/
def getFallbackAssets : List Asset :=
  [⟨"1", "0xA0b86991c6218b36c1d19D4a2e9Eb0cE3606eB48", "USDC", 6⟩,
   ⟨"1", "0xdAC17F958D2ee523a2206206994597C13D831ec7", "USDT", 6⟩,
   ⟨"1", "0x2260FAC5E5542a773Aa44fBCfeDf7C193bc2C599", "WBTC", 8⟩,
   ⟨"137", "0x2791Bca1f2de4661ED88A30C99A7a9449Aa84174", "USDC", 6⟩,
   ⟨"137", "0xc2132D05D31c914a87C6611C10748AEb04B58e8F", "USDT", 6⟩,
   ⟨"43114", "0xB97EF9Ef8734C71904D8002F8b6Bc66Dd9c48a6E", "USDC", 6⟩,
   ⟨"42161", "0xFF970A61A04b1cA14834A43f5dE4533eBDDB5CC8", "USDC", 6⟩,
   ⟨"10", "0x7F5c764cBc14f9669B88837ca1490cCa17c31607", "USDC", 6⟩,
   ⟨"56", "0x8AC76a51cc950d9822D68b83fE1Ad97B32Cd580d", "USDC", 18⟩,
   ⟨"250", "0x04068DA6C83AFCFA0e13ba15A6696662335D5B75", "USDC", 6⟩]

/-- Flattening of the registry in getListedAssets: one Asset per
chain-address pair, with `symbol || denom` and `decimals || 18` falsy
fallbacks. -/
def flattenRegistry (regs : List RegistryAsset) : List Asset :=
  regs.flatMap (fun a => a.addresses.map (fun p =>
    { chainId := p.1
      assetId := p.2
      symbol := if a.symbol = "" then a.denom else a.symbol
      decimals := if a.decimals = 0 then 18 else a.decimals }))

/-- ListedAssets of contract.ts (measuredAt omitted). -/
structure ListedAssets where
  assets : List Asset
deriving DecidableEq

/-- `getListedAssets` (service.ts lines 769-845) on a cold asset cache:
either registry fetch failing lands in the catch and yields the fallback
list, as does an empty flattened result. -/
def getListedAssets (chainsFetch : Except ServiceError Unit)
    (assetsFetch : Except ServiceError (List RegistryAsset)) : ListedAssets :=
  match chainsFetch with
  | .error _ => { assets := getFallbackAssets }
  | .ok _ =>
      match assetsFetch with
      | .error _ => { assets := getFallbackAssets }
      | .ok regs =>
          let flat := flattenRegistry regs
          { assets := if flat = [] then getFallbackAssets else flat }

/-- ProviderSnapshot of contract.ts. -/
structure ProviderSnapshot where
  volumes : List VolumeWindow
  rates : List Rate
  liquidity : List LiquidityDepth
  listedAssets : ListedAssets
deriving DecidableEq

/-- `getSnapshot` (service.ts lines 318-366): the four sub-pipelines run
under Promise.all, each wrapped in `retryOperation`; since each of the
four functions traps its own upstream failures and returns normally, the
first retry attempt succeeds and the outer catch never converts an error
(an escaped error would surface as `.error`).  `includeWindows` defaults
to the single 24h window. -/
def getSnapshot (w : UpstreamWorld) (routes : List Route)
    (notionals : List Nat) (includeWindows : Option (List Window)) :
    Except ServiceError ProviderSnapshot :=
  .ok
    { volumes := getVolumes w.transferPage (includeWindows.getD [.w24h])
      rates := getRates w routes notionals
      liquidity := getLiquidityDepth w routes
      listedAssets := getListedAssets w.chainsFetch w.assetsFetch }

/-- Every upstream interaction of the request fails with a classified
error, and no price resolves. -/
def UpstreamWorld.allCallsFail (w : UpstreamWorld) : Prop :=
  (∀ win page, ∃ e, w.transferPage win page = .error e) ∧
  (∀ r, ∃ e, w.feeFetch r = .error e) ∧
  (∀ a, w.priceApi a = none) ∧
  (∃ e, w.chainsFetch = .error e) ∧
  (∃ e, w.assetsFetch = .error e)

/-- `amountInUsd`, the USD value of the transfer (service.ts line 609):
normalized input amount times the resolved source price.  This is the
"notional's USD value" the claims speak about. -/
def notionalUsd (source : Asset) (amountIn : Nat) (priceUsd : ℚ) : ℚ :=
  (amountIn : ℚ) / 10 ^ source.decimals * priceUsd

/-! ## Concrete fixtures used by witnesses and counterexamples -/

/-- Cache instance the C9 witness runs against: TTL 100 ms, empty store. -/
def witnessCache : TTLCache Nat := ⟨100, fun _ => none, 0, 0⟩

/-- Deduplicator instance the C7 witness runs against: empty pending map. -/
def witnessDedup : Deduplicator := ⟨fun _ => none, 0, 0⟩

/-- An operation that always fails the way a call through an OPEN circuit
breaker fails: with the plain `Error('Circuit breaker is OPEN')`. -/
def circuitOpenOp : Nat → Except ServiceError Nat :=
  fun _ => .error circuitOpenError

/-- An operation that always fails with a non-retryable HTTP 404. -/
def notFoundOp : Nat → Except ServiceError Nat :=
  fun _ => .error (.axelarAPIError "HTTP error" (some 404) false)

/-- An operation that always fails rate-limited with a 5000 ms hint. -/
def rateLimitedOp : Nat → Except ServiceError Nat :=
  fun _ => .error (.rateLimitError "Rate limited" 5000)

/-- A zero-decimal stablecoin-like asset: with a $1 price, one raw unit is
one USD of notional. -/
def tinyAsset : Asset := ⟨"1", "0xstable", "USDC", 0⟩

/-- A six-decimal source asset paired with `shrinkDst` below: the
destination has fewer decimals than the source. -/
def shrinkSrc : Asset := ⟨"1", "0xsrc", "ABC", 6⟩

/-- A zero-decimal destination asset for the decimal-shrinking route. -/
def shrinkDst : Asset := ⟨"2", "0xdst", "ABC", 0⟩

/-- A six-decimal asset on Ethereum (the USDC entry of the fallback
list). -/
def usdcEth : Asset := ⟨"1", "0xA0b86991c6218b36c1d19D4a2e9Eb0cE3606eB48", "USDC", 6⟩

/-- A six-decimal asset on Polygon (the USDC entry of the fallback
list). -/
def usdcPolygon : Asset := ⟨"137", "0x2791Bca1f2de4661ED88A30C99A7a9449Aa84174", "USDC", 6⟩

/-- The one concrete route of the end-to-end scenario. -/
def cexRoute : Route := ⟨usdcEth, usdcPolygon⟩

/-- An upstream world in which every network interaction fails with a
classified error and no price resolves. -/
def allFailWorld : UpstreamWorld :=
  { transferPage := fun _ _ => .error (.axelarAPIError "Network error" (some 0) true)
    feeFetch := fun _ => .error (.axelarAPIError "Network error" (some 0) true)
    priceApi := fun _ => none
    chainsFetch := .error (.axelarAPIError "Network error" (some 0) true)
    assetsFetch := .error (.axelarAPIError "Network error" (some 0) true) }

end DataProvider

open DataProvider

/-! # Claims -/

/-- Claim C9 (confirmed): `set` stores the value with
`expiry = now + ttl` and a zeroed access counter; `get` before (here: up
to and including) the expiry returns the stored value; `get` strictly
after the expiry is a miss that evicts the entry; and every `get` bumps
exactly one of the hit and miss counters. -/
theorem ttlCache_get_set_spec {V : Type} (c : TTLCache V) (now t : Nat)
    (key : String) (v : V) :
    ((c.set now key v).store key = some ⟨v, now + c.ttlMs, 0⟩) ∧
    (t ≤ now + c.ttlMs → ((c.set now key v).get t key).1 = some v) ∧
    (now + c.ttlMs < t →
      ((c.set now key v).get t key).1 = none ∧
      ((c.set now key v).get t key).2.store key = none) ∧
    (∀ c0 : TTLCache V,
      ((c0.get t key).2.hits = c0.hits + 1 ∧ (c0.get t key).2.misses = c0.misses) ∨
      ((c0.get t key).2.misses = c0.misses + 1 ∧ (c0.get t key).2.hits = c0.hits)) := by
  refine ⟨by simp [TTLCache.set], ?_, ?_, ?_⟩
  · intro h
    simp [TTLCache.set, TTLCache.get, Nat.not_lt.mpr h]
  · intro h
    simp [TTLCache.set, TTLCache.get, h]
  · intro c0
    simp only [TTLCache.get]
    cases h : c0.store key with
    | none => simp
    | some hit =>
      by_cases ht : t > hit.expiresAt <;> simp [ht]

/-- Witness for C9 at TTL = 100: the value set at t = 0 is returned at
t = 50 and missed at t = 150, as in the spec's example. -/
theorem ttlCache_get_set_witness :
    (50 ≤ 0 + witnessCache.ttlMs ∧
      ((witnessCache.set 0 "k" 7).get 50 "k").1 = some 7) ∧
    (0 + witnessCache.ttlMs < 150 ∧
      ((witnessCache.set 0 "k" 7).get 150 "k").1 = none) :=
  ⟨⟨by decide, (ttlCache_get_set_spec witnessCache 0 50 "k" 7).2.1 (by decide)⟩,
   ⟨by decide, ((ttlCache_get_set_spec witnessCache 0 150 "k" 7).2.2.1 (by decide)).1⟩⟩

/-- While an operation for `key` is in flight, every further deduplicate
call returns the registered promise id without invoking a producer or
changing the state. -/
theorem dedupeMany_inflight (d : Deduplicator) (key : String) (id : Nat)
    (h : d.pending key = some id) :
    ∀ n, dedupeMany d key n = (List.replicate n id, d) := by
  intro n
  induction n with
  | zero => simp [dedupeMany]
  | succ n ih => simp [dedupeMany, Deduplicator.deduplicate, h, ih, List.replicate]

/-- Claim C7 (confirmed): for `n ≥ 2` deduplicate calls sharing a key,
the first issued while no operation is pending and the rest while the
first is in flight, the producer is invoked exactly once, every caller
receives the identical promise (hence the identical outcome), and after
the operation settles the key is absent from the pending map. -/
theorem deduplicate_spec (d : Deduplicator) (key : String) (n : Nat)
    (hn : 2 ≤ n) (hfree : d.pending key = none) :
    (dedupeMany d key n).1 = List.replicate n d.nextOp ∧
    (dedupeMany d key n).2.invocations = d.invocations + 1 ∧
    ((dedupeMany d key n).2.settle key).pending key = none := by
  obtain ⟨m, rfl⟩ : ∃ m, n = m + 1 := ⟨n - 1, by omega⟩
  have hstep : d.deduplicate key =
      (d.nextOp,
       { pending := fun k => if k = key then some d.nextOp else d.pending k,
         nextOp := d.nextOp + 1,
         invocations := d.invocations + 1 }) := by
    simp [Deduplicator.deduplicate, hfree]
  simp only [dedupeMany, hstep]
  rw [dedupeMany_inflight _ key d.nextOp (by simp)]
  simp [Deduplicator.settle, List.replicate]

/-- Witness for C7: three concurrent callers for one key all get promise
0, one producer invocation total, and the key is gone after settlement. -/
theorem deduplicate_witness :
    2 ≤ 3 ∧ witnessDedup.pending "price:1:0xabc" = none ∧
    (dedupeMany witnessDedup "price:1:0xabc" 3).1 = [0, 0, 0] ∧
    (dedupeMany witnessDedup "price:1:0xabc" 3).2.invocations = 1 ∧
    ((dedupeMany witnessDedup "price:1:0xabc" 3).2.settle "price:1:0xabc").pending
      "price:1:0xabc" = none := by
  have h := deduplicate_spec witnessDedup "price:1:0xabc" 3 (by decide) rfl
  exact ⟨by decide, rfl, h.1, h.2.1, h.2.2⟩

/-- Claim C2 counterexample: a breaker that opened at time 0 with
`resetTimeout = 60000`, probed at `now = 60000` — so that
`now - lastFailureTime ≥ resetTimeout` holds, the claim's condition for
moving to HALF_OPEN and attempting the call — instead fails fast without
invoking the wrapped operation and stays OPEN: the code requires
`now - lastFailureTime` to exceed `resetTimeout` strictly. -/
theorem circuitBreaker_boundary_counterexample :
    60000 - (0 : Nat) ≥ 60000 ∧
    (CircuitBreaker.execute ⟨3, 60000, 3, 0, .OPEN⟩ 60000 true).1 = .fastFail ∧
    (CircuitBreaker.execute ⟨3, 60000, 3, 0, .OPEN⟩ 60000 true).2.state = .OPEN := by
  decide

/-- Claim C2 (corrected): CLOSED→OPEN exactly when the consecutive
failure count reaches the threshold; while OPEN, a call with
`now - lastFailureTime ≤ resetTimeout` fails fast without invoking the
wrapped operation and leaves the breaker unchanged; a call with
`now - lastFailureTime > resetTimeout` (strictly — not `≥` as claimed) is
attempted, and if it succeeds the breaker is CLOSED with failure count 0;
a success in HALF_OPEN likewise returns to CLOSED with failure count 0. -/
theorem circuitBreaker_spec (b : CircuitBreaker) (now : Nat) (s : Bool) :
    (b.state = .CLOSED →
      ((b.execute now false).2.state = .OPEN ↔ b.failureThreshold ≤ b.failures + 1)) ∧
    (b.state = .OPEN → now - b.lastFailureTime ≤ b.resetTimeoutMs →
      b.execute now s = (.fastFail, b)) ∧
    (b.state = .OPEN → b.resetTimeoutMs < now - b.lastFailureTime →
      (b.execute now s).1 ≠ .fastFail ∧
      (s = true → (b.execute now s).2.state = .CLOSED ∧ (b.execute now s).2.failures = 0)) ∧
    (b.state = .HALF_OPEN →
      (b.execute now true).2.state = .CLOSED ∧ (b.execute now true).2.failures = 0) := by
  refine ⟨?_, ?_, ?_, ?_⟩
  · intro h
    rw [CircuitBreaker.execute, h]
    simp only [CircuitBreaker.attempt, CircuitBreaker.onFailure, if_false, Bool.false_eq_true]
    constructor
    · intro hst
      by_contra hlt
      simp [Nat.lt_of_not_le, ge_iff_le, if_neg (by omega : ¬ b.failures + 1 ≥ b.failureThreshold), h] at hst
    · intro hge
      simp [ge_iff_le, if_pos hge]
  · intro h hle
    rw [CircuitBreaker.execute, h]
    rw [if_neg (by omega)]
  · intro h hgt
    rw [CircuitBreaker.execute, h, if_pos (by omega)]
    cases s <;> simp [CircuitBreaker.attempt, CircuitBreaker.onSuccess]
  · intro h
    rw [CircuitBreaker.execute, h]
    simp [CircuitBreaker.attempt, CircuitBreaker.onSuccess]

/-- Witness for C2: threshold-3 breaker opens on its 3rd consecutive
failure; at 30s it fails fast unchanged; at 60001 ms it is attempted and
a success closes it; HALF_OPEN success closes it with count 0. -/
theorem circuitBreaker_spec_witness :
    ((CircuitBreaker.execute ⟨3, 60000, 2, 0, .CLOSED⟩ 5 false).2.state = .OPEN) ∧
    (CircuitBreaker.execute ⟨3, 60000, 3, 0, .OPEN⟩ 30000 true = (.fastFail, ⟨3, 60000, 3, 0, .OPEN⟩)) ∧
    ((CircuitBreaker.execute ⟨3, 60000, 3, 0, .OPEN⟩ 60001 true).1 ≠ .fastFail ∧
     (CircuitBreaker.execute ⟨3, 60000, 3, 0, .OPEN⟩ 60001 true).2.state = .CLOSED ∧
     (CircuitBreaker.execute ⟨3, 60000, 3, 0, .OPEN⟩ 60001 true).2.failures = 0) ∧
    ((CircuitBreaker.execute ⟨3, 60000, 1, 0, .HALF_OPEN⟩ 7 true).2.state = .CLOSED ∧
     (CircuitBreaker.execute ⟨3, 60000, 1, 0, .HALF_OPEN⟩ 7 true).2.failures = 0) := by
  refine ⟨?_, ?_, ?_, ?_⟩
  · exact ((circuitBreaker_spec ⟨3, 60000, 2, 0, .CLOSED⟩ 5 false).1 rfl).mpr (by decide)
  · exact (circuitBreaker_spec ⟨3, 60000, 3, 0, .OPEN⟩ 30000 true).2.1 rfl (by decide)
  · have h := (circuitBreaker_spec ⟨3, 60000, 3, 0, .OPEN⟩ 60001 true).2.2.1 rfl (by decide)
    exact ⟨h.1, (h.2 rfl).1, (h.2 rfl).2⟩
  · exact (circuitBreaker_spec ⟨3, 60000, 1, 0, .HALF_OPEN⟩ 7 true).2.2.2 rfl

/-- Claim C5 counterexample: an operation that always fails with the
circuit breaker's circuit-open error is attempted 3 times by
`retryOperation` (the full `maxRetries` budget), not aborted after 1
attempt as the claim states: the circuit-open error is a plain `Error`,
not an `AxelarAPIError{retryable:false}`, so the non-retryable check does
not recognise it. -/
theorem retry_circuitOpen_counterexample :
    (retryOperation circuitOpenOp (fun _ => 0)).attempts = 3 ∧
    ¬ (retryOperation circuitOpenOp (fun _ => 0)).attempts = 1 := by
  decide

/-- Claim C5 (corrected): the coordinator aborts immediately — one
attempt, the error surfaced, no delays — exactly when the error is an
AxelarAPIError with `retryable = false` (HTTP 4xx); the circuit breaker's
circuit-open error is a plain `Error`, which the non-retryable check does
not match, so it is retried like any retryable failure. -/
theorem retry_nonretryable_spec {α : Type} (op : Nat → Except ServiceError α)
    (jitter : Nat → Nat) (e : ServiceError)
    (h0 : op 0 = .error e) (hnr : e.isNonRetryable = true) :
    (retryOperation op jitter).result = .error e ∧
    (retryOperation op jitter).attempts = 1 ∧
    (retryOperation op jitter).delays = [] ∧
    circuitOpenError.isNonRetryable = false := by
  refine ⟨?_, ?_, ?_, by decide⟩ <;>
    simp [retryOperation, retryOperationAux, h0, hnr]

/-- Witness for C5: a 404 (AxelarAPIError, retryable = false) aborts
after exactly one attempt with the error surfaced. -/
theorem retry_nonretryable_witness :
    (retryOperation notFoundOp (fun _ => 0)).result
      = .error (.axelarAPIError "HTTP error" (some 404) false) ∧
    (retryOperation notFoundOp (fun _ => 0)).attempts = 1 ∧
    (retryOperation notFoundOp (fun _ => 0)).delays = [] := by
  have h := retry_nonretryable_spec notFoundOp (fun _ => 0)
    (.axelarAPIError "HTTP error" (some 404) false) rfl rfl
  exact ⟨h.1, h.2.1, h.2.2.1⟩

/-- Claim C8 (confirmed): when the first attempt fails with a
RateLimitError carrying `retryAfterMs`, the delay slept before the second
attempt is exactly that value, whatever the jitter sample; every other
error class gets the exponential backoff `baseDelay * 2^attempt + jitter`
instead. -/
theorem retry_rateLimit_delay_spec {α : Type} (op : Nat → Except ServiceError α)
    (jitter : Nat → Nat) (msg : String) (retryAfterMs : Nat)
    (h0 : op 0 = .error (.rateLimitError msg retryAfterMs)) :
    (retryOperation op jitter).delays.head? = some retryAfterMs ∧
    (∀ base attempt j e, (∀ m r, e ≠ ServiceError.rateLimitError m r) →
      computeDelay base attempt j e = base * 2 ^ attempt + j) := by
  constructor
  · simp [retryOperation, retryOperationAux, h0, ServiceError.isNonRetryable,
      computeDelay]
  · intro base attempt j e he
    cases e with
    | rateLimitError m r => exact absurd rfl (he m r)
    | _ => rfl

/-- Witness for C8, matching the spec's example (`maxAttempts = 3`,
`baseDelay = 1000`): the wait after a RateLimitError{retryAfterMs = 5000}
is exactly 5000 ms even with a nonzero jitter sample. -/
theorem retry_rateLimit_delay_witness :
    (retryOperation rateLimitedOp (fun _ => 123)).delays.head? = some 5000 :=
  (retry_rateLimit_delay_spec rateLimitedOp (fun _ => 123) "Rate limited" 5000 rfl).1

/-- Claim C6 counterexample: a fetch that times out leaves the call
counter and the accumulated latency untouched (only the error counter
moves), contradicting the claim that every invocation — a timeout
included — increments the call counter and accumulates latency. -/
theorem fetch_timeout_metrics_counterexample :
    (fetchWithTimeout 30000 .abortTimeout initialMetrics).2.apiCalls = 0 ∧
    ¬ (fetchWithTimeout 30000 .abortTimeout initialMetrics).2.apiCalls
        = initialMetrics.apiCalls + 1 ∧
    (fetchWithTimeout 30000 .abortTimeout initialMetrics).2.totalResponseTime = 0 := by
  refine ⟨by decide, ?_⟩
  exact ⟨by decide, by decide⟩

/-- Claim C6 (corrected): only invocations for which an HTTP response
arrives — success or error status alike — increment the call counter and
accumulate the call's latency; a timeout or transport failure bypasses
both (the counters sit after `await fetch` in the try block) and only
increments the error counter. -/
theorem fetch_metrics_spec (timeoutMs : Nat) (m : Metrics) (r : HttpResponse)
    (dur : Nat) (msg : String) :
    ((fetchWithTimeout timeoutMs (.response r dur) m).2.apiCalls = m.apiCalls + 1) ∧
    ((fetchWithTimeout timeoutMs (.response r dur) m).2.totalResponseTime
      = m.totalResponseTime + dur) ∧
    ((fetchWithTimeout timeoutMs .abortTimeout m).2.apiCalls = m.apiCalls ∧
     (fetchWithTimeout timeoutMs .abortTimeout m).2.totalResponseTime = m.totalResponseTime ∧
     (fetchWithTimeout timeoutMs .abortTimeout m).2.errors = m.errors + 1) ∧
    ((fetchWithTimeout timeoutMs (.transportError msg) m).2.apiCalls = m.apiCalls ∧
     (fetchWithTimeout timeoutMs (.transportError msg) m).2.totalResponseTime
       = m.totalResponseTime ∧
     (fetchWithTimeout timeoutMs (.transportError msg) m).2.errors = m.errors + 1) := by
  refine ⟨?_, ?_, by simp [fetchWithTimeout], by simp [fetchWithTimeout]⟩ <;>
    · simp only [fetchWithTimeout]
      split <;> simp_all <;> split <;> simp_all

/-- Every price `getUsdPrice` can resolve is strictly positive: the fetch
body only accepts a fetched price when it is positive, and every other
path (stablecoin fast path, failure fallback) yields $1. -/
theorem resolvePrice_pos (apiPrice : Option ℚ) : 0 < resolvePrice apiPrice := by
  unfold resolvePrice
  cases apiPrice with
  | none => norm_num
  | some p =>
    by_cases hp : 0 < p
    · simpa [hp]
    · simp [hp]

/-- For a positive notional the capped gas fee is the minimum of the raw
gas fee and half the notional's USD value. -/
theorem quoteGasFeeUsd_eq_min (aUsd g : ℚ) (h : 0 < aUsd) :
    quoteGasFeeUsd aUsd g = min g (0.5 * aUsd) := by
  unfold quoteGasFeeUsd
  rcases le_or_lt g (aUsd * 0.5) with hle | hlt
  · rw [if_neg (by push_neg; intro _; exact hle), min_eq_left (by linarith)]
  · rw [if_pos ⟨h, hlt⟩, min_eq_right (by linarith), mul_comm]

/-- Whatever the upstream does, the volume entry built for a window is
labelled with that window. -/
theorem getVolumeForWindow_window (f : Nat → Except ServiceError TransferPage)
    (w : Window) : (getVolumeForWindow f w).window = w := by
  unfold getVolumeForWindow
  split <;> rfl

/-- Claim C4 counterexample: a $1-notional transfer (one raw unit of a
zero-decimal $1 asset, default $5 gas) is charged a fee of $0.501 —
exceeding the claimed cap of 50% of the notional's USD value, because the
code caps only the gas component — and its amountOut is 0, not strictly
positive as claimed. -/
theorem quote_fee_cap_counterexample :
    notionalUsd tinyAsset 1 (resolvePrice none) = 1 ∧
    (getAxelarQuote tinyAsset tinyAsset 1 (resolvePrice none) none).totalFeesUsd = 0.501 ∧
    ¬ ((getAxelarQuote tinyAsset tinyAsset 1 (resolvePrice none) none).totalFeesUsd
        ≤ 0.5 * notionalUsd tinyAsset 1 (resolvePrice none)) ∧
    ¬ (0 < (getAxelarQuote tinyAsset tinyAsset 1 (resolvePrice none) none).amountOut) := by
  refine ⟨?_, ?_, ?_, ?_⟩ <;>
    · simp only [getAxelarQuote, quoteGasFeeUsd, quoteGasFeeRaw, quoteTotalFeeUsd,
        quoteFeeRatio, quoteAmountOut, resolvePrice, toFixed6, notionalUsd, tinyAsset]
      norm_num

/-- Claim C4 (corrected): for a positive raw input, the computed fee is
`baseFeePercent * notionalUsd + min(flatGasUsd, 0.5 * notionalUsd)` — the
50% cap applies to the flat gas component only, so the total fee can
exceed half the notional; `feeRatio = min(fee / notionalUsd, 0.99)` and
`amountOut = max(0, floor(amountIn * (1 - feeRatio)))`, which is
nonnegative but can be zero. -/
theorem quote_fee_formula_spec (source destination : Asset) (amountIn : Nat)
    (papi feeUsdField : Option ℚ) (hin : 0 < amountIn) :
    (getAxelarQuote source destination amountIn (resolvePrice papi) feeUsdField).totalFeesUsd
      = toFixed6 (0.001 * notionalUsd source amountIn (resolvePrice papi)
          + min (quoteGasFeeRaw feeUsdField)
                (0.5 * notionalUsd source amountIn (resolvePrice papi))) ∧
    (getAxelarQuote source destination amountIn (resolvePrice papi) feeUsdField).amountOut
      = max 0 (Int.floor ((amountIn : ℚ) * (1 -
          min ((0.001 * notionalUsd source amountIn (resolvePrice papi)
                 + min (quoteGasFeeRaw feeUsdField)
                     (0.5 * notionalUsd source amountIn (resolvePrice papi)))
               / notionalUsd source amountIn (resolvePrice papi)) 0.99))) ∧
    0 ≤ (getAxelarQuote source destination amountIn (resolvePrice papi) feeUsdField).amountOut := by
  have hp := resolvePrice_pos papi
  have hn : (0:ℚ) < (amountIn : ℚ) := by exact_mod_cast hin
  have hUsd : 0 < notionalUsd source amountIn (resolvePrice papi) := by
    unfold notionalUsd; positivity
  have hgas := quoteGasFeeUsd_eq_min _ (quoteGasFeeRaw feeUsdField) hUsd
  have htot : quoteTotalFeeUsd ((amountIn : ℚ) / 10 ^ source.decimals) (resolvePrice papi)
        (quoteGasFeeUsd (notionalUsd source amountIn (resolvePrice papi))
          (quoteGasFeeRaw feeUsdField))
      = 0.001 * notionalUsd source amountIn (resolvePrice papi)
          + min (quoteGasFeeRaw feeUsdField)
              (0.5 * notionalUsd source amountIn (resolvePrice papi)) := by
    rw [hgas]; unfold quoteTotalFeeUsd notionalUsd; ring
  refine ⟨?_, ?_, ?_⟩
  · simp only [getAxelarQuote, notionalUsd] at *
    rw [htot]
  · simp only [getAxelarQuote, quoteFeeRatio, quoteAmountOut, notionalUsd] at *
    rw [htot, if_pos hUsd]
  · simp only [getAxelarQuote, quoteAmountOut]
    exact le_max_left 0 _

/-- Witness for C4 at the spec's own example (normalized $1000 at a $1
price, default $5 gas): the fee formula holds, the fee is $6 and the
output is 994. -/
theorem quote_fee_formula_witness :
    0 < 1000 ∧
    (getAxelarQuote tinyAsset tinyAsset 1000 (resolvePrice none) none).totalFeesUsd
      = toFixed6 (0.001 * notionalUsd tinyAsset 1000 (resolvePrice none)
          + min (quoteGasFeeRaw none) (0.5 * notionalUsd tinyAsset 1000 (resolvePrice none))) ∧
    (getAxelarQuote tinyAsset tinyAsset 1000 (resolvePrice none) none).totalFeesUsd = 6 ∧
    (getAxelarQuote tinyAsset tinyAsset 1000 (resolvePrice none) none).amountOut = 994 := by
  have h := quote_fee_formula_spec tinyAsset tinyAsset 1000 none none (by decide)
  refine ⟨by decide, h.1, ?_, ?_⟩ <;>
    · simp only [getAxelarQuote, quoteGasFeeUsd, quoteGasFeeRaw, quoteTotalFeeUsd,
        quoteFeeRatio, quoteAmountOut, resolvePrice, toFixed6, tinyAsset]
      norm_num

/-- Claim C3 counterexample: on a route whose destination has fewer
decimals than its source (6 → 0), a quoted rate for one full source token
at a $1 price has effectiveRate 499000 — far above the claimed bound of
1 — because the output amount stays in source scale but is normalized by
the destination's decimals. -/
theorem rate_invariants_counterexample :
    (getAxelarQuote shrinkSrc shrinkDst 1000000 (resolvePrice none) none).effectiveRate
      = 499000 ∧
    ¬ ((getAxelarQuote shrinkSrc shrinkDst 1000000 (resolvePrice none) none).effectiveRate
        ≤ 1) := by
  constructor <;>
    · simp only [getAxelarQuote, quoteGasFeeUsd, quoteGasFeeRaw, quoteTotalFeeUsd,
        quoteFeeRatio, quoteAmountOut, resolvePrice, shrinkSrc, shrinkDst]
      norm_num

/-- Claim C3 (corrected): for a positive raw input and a nonnegative
upstream gas-fee figure, every quoted Rate satisfies
`0 ≤ effectiveRate`, `amountOut ≤ amountIn` and `totalFeesUsd ≥ 0`, and
`effectiveRate ≤ 1` holds whenever the destination's decimals are at
least the source's (it fails when the destination has fewer decimals);
every fallback Rate satisfies all the claimed bounds unconditionally. -/
theorem rate_invariants_spec (source destination : Asset) (amountIn : Nat)
    (papi feeUsdField : Option ℚ) (hin : 0 < amountIn)
    (hgr : 0 ≤ quoteGasFeeRaw feeUsdField) :
    (0 ≤ (getAxelarQuote source destination amountIn (resolvePrice papi) feeUsdField).effectiveRate) ∧
    ((getAxelarQuote source destination amountIn (resolvePrice papi) feeUsdField).amountOut
      ≤ (amountIn : Int)) ∧
    (0 ≤ (getAxelarQuote source destination amountIn (resolvePrice papi) feeUsdField).totalFeesUsd) ∧
    (source.decimals ≤ destination.decimals →
      (getAxelarQuote source destination amountIn (resolvePrice papi) feeUsdField).effectiveRate ≤ 1) ∧
    (0 ≤ (createFallbackRate source destination amountIn).effectiveRate ∧
     (createFallbackRate source destination amountIn).effectiveRate ≤ 1 ∧
     (createFallbackRate source destination amountIn).amountOut ≤ (amountIn : Int) ∧
     0 ≤ (createFallbackRate source destination amountIn).totalFeesUsd) := by
  have hp := resolvePrice_pos papi
  have hn : (0:ℚ) < (amountIn : ℚ) := by exact_mod_cast hin
  have hps : (0:ℚ) < 10 ^ source.decimals := by positivity
  have hpd : (0:ℚ) < 10 ^ destination.decimals := by positivity
  set p := resolvePrice papi with hpdef
  set aNorm : ℚ := (amountIn : ℚ) / 10 ^ source.decimals with hanorm
  have hNorm : 0 < aNorm := by positivity
  have hUsd : 0 < aNorm * p := by positivity
  have hgas : 0 ≤ quoteGasFeeUsd (aNorm * p) (quoteGasFeeRaw feeUsdField) := by
    unfold quoteGasFeeUsd
    split
    · positivity
    · exact hgr
  have htot : 0 ≤ quoteTotalFeeUsd aNorm p
      (quoteGasFeeUsd (aNorm * p) (quoteGasFeeRaw feeUsdField)) := by
    unfold quoteTotalFeeUsd
    have : 0 ≤ aNorm * p * 0.001 := by positivity
    linarith
  have hfr0 : 0 ≤ quoteFeeRatio
      (quoteTotalFeeUsd aNorm p (quoteGasFeeUsd (aNorm * p) (quoteGasFeeRaw feeUsdField)))
      (aNorm * p) := by
    unfold quoteFeeRatio
    rw [if_pos hUsd]
    exact le_min (div_nonneg htot hUsd.le) (by norm_num)
  set fr : ℚ := quoteFeeRatio
      (quoteTotalFeeUsd aNorm p (quoteGasFeeUsd (aNorm * p) (quoteGasFeeRaw feeUsdField)))
      (aNorm * p) with hfrdef
  have houtle : quoteAmountOut (amountIn : ℚ) fr ≤ (amountIn : Int) := by
    unfold quoteAmountOut
    refine max_le (by positivity) ?_
    have hmul : (amountIn : ℚ) * (1 - fr) ≤ (amountIn : ℚ) :=
      mul_le_of_le_one_right hn.le (by linarith)
    calc Int.floor ((amountIn : ℚ) * (1 - fr)) ≤ Int.floor ((amountIn : ℚ)) :=
          Int.floor_le_floor hmul
      _ = (amountIn : Int) := Int.floor_natCast amountIn
  have hout0 : (0 : Int) ≤ quoteAmountOut (amountIn : ℚ) fr := le_max_left 0 _
  have houtQ : ((quoteAmountOut (amountIn : ℚ) fr : Int) : ℚ) ≤ (amountIn : ℚ) := by
    calc ((quoteAmountOut (amountIn : ℚ) fr : Int) : ℚ) ≤ ((amountIn : Int) : ℚ) := by
          exact_mod_cast houtle
      _ = (amountIn : ℚ) := by push_cast; rfl
  have houtQ0 : (0:ℚ) ≤ ((quoteAmountOut (amountIn : ℚ) fr : Int) : ℚ) := by
    exact_mod_cast hout0
  refine ⟨?_, ?_, ?_, ?_, ?_, ?_, ?_, ?_⟩
  · simp only [getAxelarQuote, ← hfrdef, ← hanorm, ← hpdef]
    positivity
  · simp only [getAxelarQuote, ← hfrdef, ← hanorm, ← hpdef]
    exact houtle
  · simp only [getAxelarQuote, ← hanorm, ← hpdef, toFixed6]
    have hfl : (0:Int) ≤ Int.floor ((quoteTotalFeeUsd aNorm p
        (quoteGasFeeUsd (aNorm * p) (quoteGasFeeRaw feeUsdField))) * 1000000 + 1 / 2) := by
      refine Int.le_floor.mpr ?_
      push_cast
      nlinarith [htot]
    have : (0:ℚ) ≤ (Int.floor ((quoteTotalFeeUsd aNorm p
        (quoteGasFeeUsd (aNorm * p) (quoteGasFeeRaw feeUsdField))) * 1000000 + 1 / 2) : ℚ) := by
      exact_mod_cast hfl
    positivity
  · intro hdd
    simp only [getAxelarQuote, ← hfrdef, ← hanorm, ← hpdef]
    rw [div_le_one hNorm, hanorm, div_le_div_iff₀ hpd hps]
    have hpow : (10:ℚ) ^ source.decimals ≤ 10 ^ destination.decimals :=
      pow_le_pow_right₀ (by norm_num) hdd
    exact mul_le_mul houtQ hpow hps.le hn.le
  · simp [createFallbackRate]; norm_num
  · simp [createFallbackRate]; norm_num
  · simp only [createFallbackRate]
    calc Int.floor ((amountIn : ℚ) * 0.999) ≤ Int.floor ((amountIn : ℚ)) :=
          Int.floor_le_floor (mul_le_of_le_one_right hn.le (by norm_num))
      _ = (amountIn : Int) := Int.floor_natCast amountIn
  · simp only [createFallbackRate]
    positivity

/-- Witness for C3 on a decimals-preserving route (USDC 6 → USDC 6, one
full token): all four claimed bounds hold. -/
theorem rate_invariants_witness :
    0 < 1000000 ∧ 0 ≤ quoteGasFeeRaw none ∧
    0 ≤ (getAxelarQuote usdcEth usdcPolygon 1000000 (resolvePrice none) none).effectiveRate ∧
    (getAxelarQuote usdcEth usdcPolygon 1000000 (resolvePrice none) none).effectiveRate ≤ 1 ∧
    (getAxelarQuote usdcEth usdcPolygon 1000000 (resolvePrice none) none).amountOut
      ≤ (1000000 : Int) ∧
    0 ≤ (getAxelarQuote usdcEth usdcPolygon 1000000 (resolvePrice none) none).totalFeesUsd := by
  have h := rate_invariants_spec usdcEth usdcPolygon 1000000 none none (by decide)
    (by norm_num [quoteGasFeeRaw])
  exact ⟨by decide, by norm_num [quoteGasFeeRaw], h.1, h.2.2.2.1 (by decide), h.2.1, h.2.2.1⟩

/-- Claim C10 (confirmed): with `includeWindows` omitted, the snapshot's
volumes array has exactly one entry and it is for the 24h window, for
every upstream behaviour. -/
theorem snapshot_default_window_spec (w : UpstreamWorld) (routes : List Route)
    (notionals : List Nat) :
    (getSnapshot w routes notionals none).map
      (fun s => s.volumes.map VolumeWindow.window) = .ok [Window.w24h] := by
  simp [getSnapshot, getVolumes, getVolumeForWindow_window, Except.map]

/-- Claim C1 counterexample: in the all-upstream-failure scenario the
snapshot's liquidity entry is not the documented fallback entry
($800k/$600k thresholds): because getAxelarQuote absorbs its failures
into fallback quotes, every probe reports zero slippage and both
thresholds land on the $1M probe. -/
theorem snapshot_fallbackLiquidity_counterexample :
    (getSnapshot allFailWorld [cexRoute] [1000000, 5000000] (some [.w24h, .w7d])).map
        ProviderSnapshot.liquidity
      = .ok [⟨cexRoute, [⟨1000000 * 10 ^ 6, 50⟩, ⟨1000000 * 10 ^ 6, 100⟩]⟩] ∧
    ¬ ((getSnapshot allFailWorld [cexRoute] [1000000, 5000000] (some [.w24h, .w7d])).map
        ProviderSnapshot.liquidity
      = .ok [fallbackLiquidityEntry cexRoute]) := by
  constructor <;>
    · norm_num [getSnapshot, getLiquidityDepth, getLiquidityForRoute, liquidityLadder,
        routeQuote, getAxelarQuoteFull, allFailWorld, createFallbackRate, slippageBpsOf,
        Except.map, cexRoute, usdcEth, usdcPolygon, fallbackLiquidityEntry]

/-- Claim C1 (corrected): when every upstream call fails with a
classified error, getSnapshot still returns a contract-shaped snapshot
and raises no error: one heuristic-estimate volume entry per requested
window, one fallback (~0.1% fee) rate entry per route×notional, the
non-empty fallback asset list — and one liquidity entry per route whose
two thresholds are both the $1M probe amount (zero measured slippage
between fallback quotes), not the documented fallback thresholds. -/
theorem snapshot_allFail_spec (w : UpstreamWorld) (routes : List Route)
    (notionals : List Nat) (windows : List Window)
    (hfail : w.allCallsFail) :
    getSnapshot w routes notionals (some windows) = .ok
      { volumes := windows.map (fun win => ⟨win, getEstimatedVolume win⟩)
        rates := routes.flatMap (fun r => notionals.map (fun n =>
          createFallbackRate r.source r.destination n))
        liquidity := routes.map (fun r =>
          ⟨r, [⟨1000000 * 10 ^ r.source.decimals, 50⟩,
               ⟨1000000 * 10 ^ r.source.decimals, 100⟩]⟩)
        listedAssets := ⟨getFallbackAssets⟩ } ∧
    getFallbackAssets ≠ [] := by
  obtain ⟨hv, hf, hprice, ⟨ec, hc⟩, ⟨ea, ha⟩⟩ := hfail
  have hquote : ∀ r : Route, ∀ a : Nat,
      getAxelarQuoteFull r.source r.destination a (w.feeFetch r) (w.priceApi r.source)
        = createFallbackRate r.source r.destination a := by
    intro r a
    obtain ⟨e, he⟩ := hf r
    simp [getAxelarQuoteFull, he]
  refine ⟨?_, by simp [getFallbackAssets]⟩
  unfold getSnapshot
  have h1 : getVolumes w.transferPage ((some windows).getD [.w24h])
      = windows.map (fun win => ⟨win, getEstimatedVolume win⟩) := by
    simp only [Option.getD, getVolumes]
    refine List.map_congr_left ?_
    intro win _
    obtain ⟨e, he⟩ := hv win 0
    simp [getVolumeForWindow, sumTransferPages, he]
  have h2 : getRates w routes notionals
      = routes.flatMap (fun r => notionals.map (fun n =>
          createFallbackRate r.source r.destination n)) := by
    unfold getRates
    refine List.flatMap_congr ?_
    intro r _
    exact List.map_congr_left (fun n _ => hquote r n)
  have h3 : getLiquidityDepth w routes
      = routes.map (fun r =>
          ⟨r, [⟨1000000 * 10 ^ r.source.decimals, 50⟩,
               ⟨1000000 * 10 ^ r.source.decimals, 100⟩]⟩) := by
    unfold getLiquidityDepth
    refine List.map_congr_left ?_
    intro r _
    norm_num [getLiquidityForRoute, liquidityLadder, routeQuote, hquote,
      createFallbackRate, slippageBpsOf]
  have h4 : getListedAssets w.chainsFetch w.assetsFetch = ⟨getFallbackAssets⟩ := by
    simp [getListedAssets, hc]
  rw [h1, h2, h3, h4]

/-- Witness for C1: the concrete all-failing world with one USDC route,
one notional and the 24h window produces exactly the degraded snapshot. -/
theorem snapshot_allFail_witness :
    allFailWorld.allCallsFail ∧
    getSnapshot allFailWorld [cexRoute] [5000000] (some [.w24h]) = .ok
      { volumes := [⟨.w24h, getEstimatedVolume .w24h⟩]
        rates := [createFallbackRate usdcEth usdcPolygon 5000000]
        liquidity := [⟨cexRoute, [⟨1000000 * 10 ^ 6, 50⟩, ⟨1000000 * 10 ^ 6, 100⟩]⟩]
        listedAssets := ⟨getFallbackAssets⟩ } := by
  have hfail : allFailWorld.allCallsFail :=
    ⟨fun _ _ => ⟨_, rfl⟩, fun _ => ⟨_, rfl⟩, fun _ => rfl, ⟨_, rfl⟩, ⟨_, rfl⟩⟩
  refine ⟨hfail, ?_⟩
  have h := (snapshot_allFail_spec allFailWorld [cexRoute] [5000000] [.w24h] hfail).1
  rw [h]
  norm_num [cexRoute, usdcEth, usdcPolygon]
